import Mathlib

/-!
Verification of the ssh-mcp-server core (`dist/index.js`): the command-safety
classifier `isCommandDangerous` and the tool handlers `create_connection`,
`execute_command`, `secure_execute_command`, `close_connection` over the
global `connections` map.

The JavaScript regular expressions used by the classifier are embedded via a
small, total, all-results matcher (`RE`, `matchList`): a regex match at a
position is modelled as the set of states reachable after consuming the
pattern, and `test` as the existence of a match starting at some position
(anchored patterns match at position 0 only).  Kleene star is computed by
iterating the body with strict input consumption; since every star body in
the embedded patterns consumes at least one character per iteration, bounding
the iteration count by the remaining input length is exact, not an
approximation.
-/

set_option maxRecDepth 4096

namespace SshMcp

/-- JavaScript whitespace class `\s` (ASCII part; the embedded commands are
ASCII). -/
def isJsSpace (c : Char) : Bool :=
  c = ' ' || c = '\t' || c = '\n' || c = '\r' || c = '\x0b' || c = '\x0c'

/-- JavaScript word character `\w` = `[A-Za-z0-9_]`, used by `\b`. -/
def isWordChar (c : Char) : Bool :=
  c.isAlpha || c.isDigit || c = '_'

/-- JavaScript `.` : any character except line terminators. -/
def isDotChar (c : Char) : Bool :=
  !(c = '\n' || c = '\r')

/-- `String.prototype.trim()` on the underlying character list. -/
def jsTrim (l : List Char) : List Char :=
  ((l.dropWhile isJsSpace).reverse.dropWhile isJsSpace).reverse

/-- `String.prototype.toLowerCase()` (ASCII part) on the character list. -/
def jsLower (l : List Char) : List Char :=
  l.map Char.toLower

/-- `command.trim().toLowerCase()` — the normalization performed at the top of
`isCommandDangerous`. -/
def normalize (l : List Char) : List Char :=
  jsLower (jsTrim l)

/-- Regular expressions as used by the classifier: character classes,
concatenation, alternation, Kleene star, the zero-width word boundary `\b`
and end-of-input `$`. -/
inductive RE where
  | eps : RE
  | cls (p : Char → Bool) : RE
  | cat (a b : RE) : RE
  | alt (a b : RE) : RE
  | star (a : RE) : RE
  | wordB : RE
  | eos : RE

/-- `\b` holds between a word character and a non-word character (either side
may be the edge of the input).  `l` is the reversed consumed prefix, `r` the
remaining input. -/
def boundaryOK (l r : List Char) : Bool :=
  let lw := match l with | [] => false | c :: _ => isWordChar c
  let rw := match r with | [] => false | c :: _ => isWordChar c
  lw != rw

/-- Iterate a match step at most `fuel` times, requiring strict consumption at
every iteration; returns the states reachable after 0, 1, ... iterations. -/
def starIter (f : List Char → List Char → List (List Char × List Char)) :
    Nat → List Char → List Char → List (List Char × List Char)
  | 0, l, r => [(l, r)]
  | Nat.succ n, l, r =>
    (l, r) :: (f l r).flatMap (fun p =>
      if p.2.length < r.length then starIter f n p.1 p.2 else [])

/-- All states `(consumedRev, rest)` reachable by matching `re` starting at
the state `(l, r)`. -/
def matchList : RE → List Char → List Char → List (List Char × List Char)
  | RE.eps, l, r => [(l, r)]
  | RE.cls p, l, r =>
    match r with
    | [] => []
    | c :: r2 => if p c then [(c :: l, r2)] else []
  | RE.cat a b, l, r => (matchList a l r).flatMap (fun q => matchList b q.1 q.2)
  | RE.alt a b, l, r => matchList a l r ++ matchList b l r
  | RE.star a, l, r => starIter (matchList a) r.length l r
  | RE.wordB, l, r => if boundaryOK l r then [(l, r)] else []
  | RE.eos, l, r => if r.isEmpty then [(l, r)] else []

/-- `re.test(s)` for a `^`-anchored pattern: a match starting at position 0. -/
def reTestAnchored (re : RE) (s : List Char) : Bool :=
  !(matchList re [] s).isEmpty

/-- Search helper: try a match at every start position. -/
def reSearchAux (re : RE) : List Char → List Char → Bool
  | l, [] => !(matchList re l []).isEmpty
  | l, c :: r2 => !(matchList re l (c :: r2)).isEmpty || reSearchAux re (c :: l) r2

/-- `re.test(s)` for an unanchored pattern: a match starting anywhere. -/
def reTest (re : RE) (s : List Char) : Bool :=
  reSearchAux re [] s

/-- A single literal character. -/
def lc (c : Char) : RE := RE.cls (fun d => d = c)

/-- A literal string. -/
def lit (s : String) : RE :=
  s.data.foldr (fun c r => RE.cat (lc c) r) RE.eps

/-- Concatenation of a list of regexes. -/
def cats (l : List RE) : RE := l.foldr RE.cat RE.eps

/-- Alternation of a list of regexes (the empty alternation matches nothing). -/
def alts : List RE → RE
  | [] => RE.cls (fun _ => false)
  | [r] => r
  | r :: rs => RE.alt r (alts rs)

/-- `\s` -/
def ws : RE := RE.cls isJsSpace

/-- `\s+` -/
def wsPlus : RE := RE.cat ws (RE.star ws)

/-- `\s*` -/
def wsStar : RE := RE.star ws

/-- `.*` -/
def anyStar : RE := RE.star (RE.cls isDotChar)

/-- `r+` -/
def rplus (r : RE) : RE := RE.cat r (RE.star r)

/-! ### The classifier's allow-list patterns (each `^`-anchored) -/

/-- `^systemctl\s+(status|show|list-units|list-unit-files|is-active|is-enabled|is-failed|cat|help)` -/
def allowSystemctl : RE :=
  cats [lit "systemctl", wsPlus,
    alts [lit "status", lit "show", lit "list-units", lit "list-unit-files",
      lit "is-active", lit "is-enabled", lit "is-failed", lit "cat", lit "help"]]

/-- `^git\s+(status|log|show|diff|branch|remote|config\s+--list|ls-files|ls-remote)` -/
def allowGit : RE :=
  cats [lit "git", wsPlus,
    alts [lit "status", lit "log", lit "show", lit "diff", lit "branch", lit "remote",
      cats [lit "config", wsPlus, lit "--list"], lit "ls-files", lit "ls-remote"]]

/-- `^(apt|yum|dnf|pacman)\s+(list|search|show|info|query)` -/
def allowPkg : RE :=
  cats [alts [lit "apt", lit "yum", lit "dnf", lit "pacman"], wsPlus,
    alts [lit "list", lit "search", lit "show", lit "info", lit "query"]]

/-- `^docker\s+(ps|images|inspect|logs|version|info|system\s+df|system\s+info)` -/
def allowDocker : RE :=
  cats [lit "docker", wsPlus,
    alts [lit "ps", lit "images", lit "inspect", lit "logs", lit "version", lit "info",
      cats [lit "system", wsPlus, lit "df"], cats [lit "system", wsPlus, lit "info"]]]

/-- `^kubectl\s+(get|describe|logs|explain|version|cluster-info|config\s+view)` -/
def allowKubectl : RE :=
  cats [lit "kubectl", wsPlus,
    alts [lit "get", lit "describe", lit "logs", lit "explain", lit "version",
      lit "cluster-info", cats [lit "config", wsPlus, lit "view"]]]

/-- The classifier's early-return allow-list, in source order: any anchored
match returns `false` (not dangerous) immediately. -/
def matchesAllowList (cmd : List Char) : Bool :=
  reTestAnchored allowSystemctl cmd || reTestAnchored allowGit cmd ||
  reTestAnchored allowPkg cmd || reTestAnchored allowDocker cmd ||
  reTestAnchored allowKubectl cmd

/-! ### The classifier's `dangerousPatterns` (each unanchored) -/

/-- `\brm\s+(-[rf]*\s+)*(\/|\*|\$|~)` -/
def dRm : RE :=
  cats [RE.wordB, lit "rm", wsPlus,
    RE.star (cats [lc '-', RE.star (RE.cls (fun c => c = 'r' || c = 'f')), wsPlus]),
    alts [lc '/', lc '*', lc '$', lc '~']]

/-- `\bmv\s+.*\s+(\/|\*)` -/
def dMv : RE :=
  cats [RE.wordB, lit "mv", wsPlus, anyStar, wsPlus, alts [lc '/', lc '*']]

/-- `\bchmod\s+[0-7]*\s+(\/|~|\*)` -/
def dChmod : RE :=
  cats [RE.wordB, lit "chmod", wsPlus,
    RE.star (RE.cls (fun c => '0' ≤ c && c ≤ '7')), wsPlus,
    alts [lc '/', lc '~', lc '*']]

/-- `\bchown\s+.*\s+(\/|~|\*)` -/
def dChown : RE :=
  cats [RE.wordB, lit "chown", wsPlus, anyStar, wsPlus, alts [lc '/', lc '~', lc '*']]

/-- `>[^|&]*\s*(\/|~|\*)` -/
def dRedirect : RE :=
  cats [lc '>', RE.star (RE.cls (fun c => !(c = '|' || c = '&'))), wsStar,
    alts [lc '/', lc '~', lc '*']]

/-- `\bdd\s+.*of=` -/
def dDd : RE :=
  cats [RE.wordB, lit "dd", wsPlus, anyStar, lit "of="]

/-- `\btruncate\s` -/
def dTruncate : RE := cats [RE.wordB, lit "truncate", ws]

/-- `\b(systemctl|service)\s+(stop|start|restart|disable|enable|mask|reload)` -/
def dServiceCtl : RE :=
  cats [RE.wordB, alts [lit "systemctl", lit "service"], wsPlus,
    alts [lit "stop", lit "start", lit "restart", lit "disable", lit "enable",
      lit "mask", lit "reload"]]

/-- `\b(kill|pkill|killall)\s` -/
def dKill : RE :=
  cats [RE.wordB, alts [lit "kill", lit "pkill", lit "killall"], ws]

/-- `\b(apt|yum|dnf|pacman)\s+(install|remove|update|upgrade|autoremove)` -/
def dPkgInstall : RE :=
  cats [RE.wordB, alts [lit "apt", lit "yum", lit "dnf", lit "pacman"], wsPlus,
    alts [lit "install", lit "remove", lit "update", lit "upgrade", lit "autoremove"]]

/-- `\b(iptables|ufw|firewall-cmd)\s` -/
def dFirewall : RE :=
  cats [RE.wordB, alts [lit "iptables", lit "ufw", lit "firewall-cmd"], ws]

/-- `\bifconfig\s+.*\s+(up|down)` -/
def dIfconfig : RE :=
  cats [RE.wordB, lit "ifconfig", wsPlus, anyStar, wsPlus, alts [lit "up", lit "down"]]

/-- `\b(useradd|userdel|usermod|passwd|su\s|sudo\s)` -/
def dUserMod : RE :=
  cats [RE.wordB,
    alts [lit "useradd", lit "userdel", lit "usermod", lit "passwd",
      cats [lit "su", ws], cats [lit "sudo", ws]]]

/-- `\bcrontab\s+-[er]` -/
def dCrontab : RE :=
  cats [RE.wordB, lit "crontab", wsPlus, lc '-', RE.cls (fun c => c = 'e' || c = 'r')]

/-- `\bgit\s+(push|pull|clone|reset\s+--hard|clean\s+-f|rm)` -/
def dGit : RE :=
  cats [RE.wordB, lit "git", wsPlus,
    alts [lit "push", lit "pull", lit "clone",
      cats [lit "reset", wsPlus, lit "--hard"],
      cats [lit "clean", wsPlus, lit "-f"], lit "rm"]]

/-- `\bdocker\s+(rm|rmi|kill|stop|exec|run|build|push|pull)` -/
def dDocker : RE :=
  cats [RE.wordB, lit "docker", wsPlus,
    alts [lit "rm", lit "rmi", lit "kill", lit "stop", lit "exec", lit "run",
      lit "build", lit "push", lit "pull"]]

/-- `\bkubectl\s+(delete|apply|create|replace|patch|scale|rollout)` -/
def dKubectl : RE :=
  cats [RE.wordB, lit "kubectl", wsPlus,
    alts [lit "delete", lit "apply", lit "create", lit "replace", lit "patch",
      lit "scale", lit "rollout"]]

/-- `\b(nano|vi|vim|emacs|code)\s` -/
def dEditor : RE :=
  cats [RE.wordB, alts [lit "nano", lit "vi", lit "vim", lit "emacs", lit "code"], ws]

/-- `\b(tar|unzip|unrar)\s+.*-[xf]` -/
def dArchive : RE :=
  cats [RE.wordB, alts [lit "tar", lit "unzip", lit "unrar"], wsPlus, anyStar,
    lc '-', RE.cls (fun c => c = 'x' || c = 'f')]

/-- `\btcpdump\s` -/
def dTcpdump : RE := cats [RE.wordB, lit "tcpdump", ws]

/-- `\bwireshark\s` -/
def dWireshark : RE := cats [RE.wordB, lit "wireshark", ws]

/-- `\b(gcc|g\+\+|make|cmake|javac|python\s+setup\.py\s+install)` -/
def dCompile : RE :=
  cats [RE.wordB,
    alts [lit "gcc", lit "g++", lit "make", lit "cmake", lit "javac",
      cats [lit "python", wsPlus, lit "setup.py", wsPlus, lit "install"]]]

/-- `&\s*$` -/
def dBackground : RE := cats [lc '&', wsStar, RE.eos]

/-- `\bnohup\s` -/
def dNohup : RE := cats [RE.wordB, lit "nohup", ws]

/-- `\|\s*(sh|bash|zsh|csh|tcsh|fish|python|perl|ruby|node)` -/
def dPipeShell : RE :=
  cats [lc '|', wsStar,
    alts [lit "sh", lit "bash", lit "zsh", lit "csh", lit "tcsh", lit "fish",
      lit "python", lit "perl", lit "ruby", lit "node"]]

/-- `dangerousPatterns`, in source order. -/
def dangerousPatterns : List RE :=
  [dRm, dMv, dChmod, dChown, dRedirect, dDd, dTruncate, dServiceCtl, dKill,
   dPkgInstall, dFirewall, dIfconfig, dUserMod, dCrontab, dGit, dDocker,
   dKubectl, dEditor, dArchive, dTcpdump, dWireshark, dCompile, dBackground,
   dNohup, dPipeShell]

/-- `isCommandDangerous(command)` from `dist/index.js`: normalize
(`trim().toLowerCase()`); return `false` on any allow-list match; otherwise
return whether some dangerous pattern matches. -/
def isCommandDangerous (command : String) : Bool :=
  if matchesAllowList (normalize command.data) then false
  else List.any dangerousPatterns (fun p => reTest p (normalize command.data))

/-- The classifier verdict of the spec. -/
inductive Verdict where
  | allowed : Verdict
  | denied : Verdict
  deriving DecidableEq, Repr

/-- `classify` as the spec names the classifier: `denied` exactly when
`isCommandDangerous` holds. -/
def classify (command : String) : Verdict :=
  if isCommandDangerous command then Verdict.denied else Verdict.allowed

/-! ### Data model: inventory, sessions, global state -/

/-- An entry of `availableMachines` (connection spec fields beyond identity
are consumed only by the transport collaborator and are not needed here). -/
structure Machine where
  machine_id : String
  label : String
  os : String
  source : String
  deriving DecidableEq, Repr

/-- `findMachine(machine_id)`: first inventory entry with that id. -/
def findMachine (inv : List Machine) (machine_id : String) : Option Machine :=
  inv.find? (fun m => m.machine_id = machine_id)

/-- One value of the `connections` map:
`{ client, machine_id, title, currentPath }`; the transport client is
modelled by its handle number. -/
structure ConnInfo where
  machine_id : String
  title : String
  currentPath : String
  handle : Nat
  deriving DecidableEq, Repr

/-- The result of `wrapExec`: `{ stdout, stderr, exitCode }`. -/
structure ExecResult where
  stdout : String
  stderr : String
  exitCode : Int
  deriving DecidableEq, Repr

/-- Global server state: the `connections` map (association list keyed by
`connection_id`; `Map` keys are unique), the handles on which `client.end()`
has been called, and the log of commands handed to the transport's exec
primitive (one entry per `wrapExec` call). -/
structure ServerState where
  connections : List (String × ConnInfo)
  endedHandles : List Nat
  execLog : List (Nat × String)
  deriving DecidableEq, Repr

/-- `connections.get(connection_id)`. -/
def lookupConn : List (String × ConnInfo) → String → Option ConnInfo
  | [], _ => none
  | p :: rest, cid => if p.1 = cid then some p.2 else lookupConn rest cid

/-- `connections.delete(connection_id)` (keys are unique, so removing every
entry with the key coincides with `Map.delete`). -/
def deleteConn : List (String × ConnInfo) → String → List (String × ConnInfo)
  | [], _ => []
  | p :: rest, cid =>
    if p.1 = cid then deleteConn rest cid else p :: deleteConn rest cid

/-- `conn.currentPath = path` for the entry at the key. -/
def setPath (l : List (String × ConnInfo)) (cid : String) (path : String) :
    List (String × ConnInfo) :=
  l.map (fun p => if p.1 = cid then (p.1, { p.2 with currentPath := path }) else p)

/-- The semantic error kinds of the handlers (each surfaced as a thrown
`Error` in the source). -/
inductive McpError where
  | invalidArgument : McpError
  | notFound : McpError
  | connectionError : McpError
  | policyViolation : McpError
  deriving DecidableEq, Repr

/-- The remote side of one `create_connection` call: the SSH handshake may
fail (`error` event), the initial `pwd` probe may fail, or the probe returns
the remote stdout. -/
inductive ConnectOutcome where
  | handshakeFail : ConnectOutcome
  | probeFail : ConnectOutcome
  | ok (pwdOut : String) : ConnectOutcome
  deriving DecidableEq, Repr

/-- The JSON body returned by a successful `create_connection`. -/
structure CreateResult where
  connection_id : String
  machine_id : String
  title : String
  currentPath : String
  deriving DecidableEq, Repr

/-- The transport's exec primitive, as a deterministic oracle: given the exec
log so far, a handle and a command it yields the remote result.  (Channel
failures of `wrapExec` after connection setup are outside the claims and the
oracle is total.) -/
def Oracle : Type := List (Nat × String) → Nat → String → ExecResult

/-! ### Handlers (the `CallToolRequestSchema` dispatch arms) -/

/-- The `create_connection` arm.  `connection_id` stands for the value
produced by `crypto.randomUUID()` and `handle` for the fresh `SSHClient`;
both are inputs of the model since they come from outside the core.  On a
handshake failure the client never reached `ready` (no transport was built);
on a probe failure the `catch` arm runs `client.end()`; only the fully
successful path inserts into `connections`. -/
def create_connection (inv : List Machine) (st : ServerState)
    (machine_id title connection_id : String) (handle : Nat)
    (outcome : ConnectOutcome) : Except McpError CreateResult × ServerState :=
  if machine_id = "" ∨ title = "" then (Except.error McpError.invalidArgument, st)
  else
    match findMachine inv machine_id with
    | none => (Except.error McpError.notFound, st)
    | some _ =>
      match outcome with
      | ConnectOutcome.handshakeFail => (Except.error McpError.connectionError, st)
      | ConnectOutcome.probeFail =>
        (Except.error McpError.connectionError,
          { st with execLog := st.execLog ++ [(handle, "pwd")],
                    endedHandles := handle :: st.endedHandles })
      | ConnectOutcome.ok pwdOut =>
        let info : ConnInfo :=
          { machine_id := machine_id, title := title,
            currentPath := String.mk (jsTrim pwdOut.data), handle := handle }
        (Except.ok
          { connection_id := connection_id, machine_id := machine_id,
            title := title, currentPath := info.currentPath },
         { st with connections := st.connections ++ [(connection_id, info)],
                   execLog := st.execLog ++ [(handle, "pwd")] })

/-- The `get_connections` arm (projection of the registry). -/
def get_connections (st : ServerState) : List (String × String × String × String) :=
  st.connections.map (fun p => (p.1, p.2.machine_id, p.2.title, p.2.currentPath))

/-- The `get_available_connections` arm (projection of the inventory). -/
def get_available_connections (inv : List Machine) :
    List (String × String × String × String) :=
  inv.map (fun m => (m.machine_id, m.label, m.os, m.source))

/-- The cd-detection regex of the `execute_command` arm, exactly as written
in the source: the regex literal `/^cd\\s+/`, i.e. `c`, `d`, a literal
backslash, then one or more `s` — not `cd` followed by whitespace. -/
def cdRegex : RE := cats [lit "cd", lc '\\', rplus (lc 's')]

/-- The `execute_command` arm: empty-command guard, registry lookup, the main
`wrapExec`, then — only when `/^cd\\s+/` matches the trimmed command — an
extra `pwd` round-trip whose trimmed stdout replaces `currentPath`. -/
def execute_command (st : ServerState) (connection_id command : String)
    (oracle : Oracle) : Except McpError ExecResult × ServerState :=
  if jsTrim command.data = [] then (Except.error McpError.invalidArgument, st)
  else
    match lookupConn st.connections connection_id with
    | none => (Except.error McpError.notFound, st)
    | some conn =>
      let res := oracle st.execLog conn.handle command
      let log1 := st.execLog ++ [(conn.handle, command)]
      if reTestAnchored cdRegex (jsTrim command.data) then
        let cwd := oracle log1 conn.handle "pwd"
        (Except.ok res,
          { st with
              connections :=
                setPath st.connections connection_id (String.mk (jsTrim cwd.stdout.data)),
              execLog := log1 ++ [(conn.handle, "pwd")] })
      else (Except.ok res, { st with execLog := log1 })

/-- The `secure_execute_command` arm: empty-command guard, registry lookup,
then the `isCommandDangerous` gate before any transport call. -/
def secure_execute_command (st : ServerState) (connection_id command : String)
    (oracle : Oracle) : Except McpError ExecResult × ServerState :=
  if jsTrim command.data = [] then (Except.error McpError.invalidArgument, st)
  else
    match lookupConn st.connections connection_id with
    | none => (Except.error McpError.notFound, st)
    | some conn =>
      if isCommandDangerous command then (Except.error McpError.policyViolation, st)
      else
        (Except.ok (oracle st.execLog conn.handle command),
         { st with execLog := st.execLog ++ [(conn.handle, command)] })

/-- The `close_connection` arm: lookup, `client.end()`, `connections.delete`. -/
def close_connection (st : ServerState) (connection_id : String) :
    Except McpError Bool × ServerState :=
  match lookupConn st.connections connection_id with
  | none => (Except.error McpError.notFound, st)
  | some conn =>
    (Except.ok true,
     { st with connections := deleteConn st.connections connection_id,
               endedHandles := conn.handle :: st.endedHandles })

/-! ### Traces of registry operations (for the id-uniqueness claim) -/

/-- One tool call touching the registry. -/
inductive Op where
  | create (machine_id title connection_id : String) (handle : Nat)
      (outcome : ConnectOutcome) : Op
  | close (connection_id : String) : Op
  deriving DecidableEq, Repr

/-- The `crypto.randomUUID()` values supplied to the create calls of a trace. -/
def createIds : List Op → List String
  | [] => []
  | Op.create _ _ cid _ _ :: rest => cid :: createIds rest
  | Op.close _ :: rest => createIds rest

/-- Run a trace of create/close calls, collecting the `connection_id`s
returned by the successful creates. -/
def runTrace (inv : List Machine) : List Op → ServerState → List String × ServerState
  | [], st => ([], st)
  | Op.create mid t cid h oc :: rest, st =>
    let res := create_connection inv st mid t cid h oc
    match res.1 with
    | Except.ok r =>
      ((r.connection_id :: (runTrace inv rest res.2).1), (runTrace inv rest res.2).2)
    | Except.error _ => runTrace inv rest res.2
  | Op.close cid :: rest, st => runTrace inv rest (close_connection st cid).2

/-! ### Concrete fixtures used by the witnesses -/

/-- A one-machine inventory entry. -/
def sampleMachine : Machine :=
  { machine_id := "m1", label := "Todo server", os := "ubuntu", source := "digitalocean" }

/-- An open session on `sampleMachine` with transport handle 7. -/
def sampleConn : ConnInfo :=
  { machine_id := "m1", title := "ops", currentPath := "/root", handle := 7 }

/-- A state holding the single open session under id `c1`. -/
def sampleState : ServerState :=
  { connections := [("c1", sampleConn)], endedHandles := [], execLog := [] }

/-- A transport oracle with a fixed reply. -/
def constOracle : Oracle :=
  fun _ _ _ => { stdout := "/tmp\n", stderr := "", exitCode := 0 }

/-- The empty server state (process start). -/
def emptyState : ServerState :=
  { connections := [], endedHandles := [], execLog := [] }

/-- A sample trace: create a session, close it, create another. -/
def sampleOps : List Op :=
  [Op.create "m1" "a" "id1" 1 (ConnectOutcome.ok "/root\n"),
   Op.close "id1",
   Op.create "m1" "b" "id2" 2 (ConnectOutcome.ok "/home\n")]

/-! ### Helper lemmas -/

/-- A command that trims to nothing matches no pattern: the classifier can
never deny it. -/
theorem isCommandDangerous_of_trim_empty (c : String) (h : jsTrim c.data = []) :
    isCommandDangerous c = false := by
  have hn : normalize c.data = [] := by
    unfold normalize
    rw [h]
    rfl
  unfold isCommandDangerous
  simp only [hn]
  decide

/-- After deleting a key, looking it up yields nothing. -/
theorem lookupConn_deleteConn (l : List (String × ConnInfo)) (cid : String) :
    lookupConn (deleteConn l cid) cid = none := by
  induction l with
  | nil => rfl
  | cons p rest ih =>
    unfold deleteConn
    by_cases hp : p.1 = cid
    · simp [hp, ih]
    · simp [hp, lookupConn, ih]

/-- A successful `create_connection` returns exactly the freshly generated
`connection_id`. -/
theorem create_connection_ok_id (inv : List Machine) (st : ServerState)
    (mid title cid : String) (h : Nat) (oc : ConnectOutcome) (r : CreateResult)
    (he : (create_connection inv st mid title cid h oc).1 = Except.ok r) :
    r.connection_id = cid := by
  unfold create_connection at he
  split at he
  · simp at he
  · split at he
    · simp at he
    · cases oc with
      | handshakeFail => simp at he
      | probeFail => simp at he
      | ok pwdOut =>
        simp at he
        rw [← he]

/-- The ids collected from a trace form a sublist of the supplied
`crypto.randomUUID()` values of its create calls. -/
theorem runTrace_sublist (inv : List Machine) (ops : List Op) (st : ServerState) :
    List.Sublist (runTrace inv ops st).1 (createIds ops) := by
  induction ops generalizing st with
  | nil => simp [runTrace, createIds]
  | cons op rest ih =>
    cases op with
    | create mid t cid h oc =>
      unfold runTrace createIds
      cases he : (create_connection inv st mid t cid h oc).1 with
      | ok r =>
        simp only [he]
        rw [create_connection_ok_id inv st mid t cid h oc r he]
        exact List.Sublist.cons₂ cid (ih _)
      | error e =>
        simp only [he]
        exact List.Sublist.cons cid (ih _)
    | close cid =>
      unfold runTrace createIds
      exact ih _

/-! ### Claim theorems -/

/-- C1: the spec says `execute_command` with a command that textually begins
with a directory-change form (e.g. `cd /tmp`) issues an extra `pwd`
round-trip and updates `currentPath`.  The code's detection regex is the
literal `/^cd\\s+/`, which requires a backslash after `cd`, so on the very
input `cd /tmp` no probe is issued and `currentPath` is untouched (the exec
log gains exactly the one main command); only commands such as `cd\ss ...`
would trigger the probe.  A plain `ls` also leaves the registry unchanged. -/
theorem execute_command_cd_no_probe_no_update :
    (execute_command sampleState "c1" "cd /tmp" constOracle).2 =
      { sampleState with execLog := [(7, "cd /tmp")] } ∧
    (execute_command sampleState "c1" "cd /tmp" constOracle).2.connections =
      sampleState.connections ∧
    reTestAnchored cdRegex (jsTrim ("cd /tmp".data)) = false ∧
    reTestAnchored cdRegex (jsTrim ("cd\\ss /tmp".data)) = true ∧
    (execute_command sampleState "c1" "ls" constOracle).2.connections =
      sampleState.connections := by
  refine ⟨by decide, by decide, by decide, by decide, by decide⟩

/-- C2: for any command the classifier marks dangerous, issued on an
existing `connection_id`, `secure_execute_command` fails with the policy
violation and returns the state unchanged — in particular the exec log is
unchanged, i.e. zero transport calls are made. -/
theorem secure_execute_command_denied_no_remote_call (st : ServerState)
    (cid command : String) (oracle : Oracle) (conn : ConnInfo)
    (hc : lookupConn st.connections cid = some conn)
    (hd : isCommandDangerous command = true) :
    secure_execute_command st cid command oracle =
      (Except.error McpError.policyViolation, st) := by
  have hne : ¬ jsTrim command.data = [] := by
    intro h0
    rw [isCommandDangerous_of_trim_empty command h0] at hd
    exact Bool.false_ne_true hd
  simp [secure_execute_command, hne, hc, hd]

/-- Witness for C2 at the denied command `sudo reboot` on the sample state. -/
theorem secure_execute_command_denied_no_remote_call_witness :
    isCommandDangerous "sudo reboot" = true ∧
    secure_execute_command sampleState "c1" "sudo reboot" constOracle =
      (Except.error McpError.policyViolation, sampleState) :=
  ⟨by decide,
   secure_execute_command_denied_no_remote_call sampleState "c1" "sudo reboot"
     constOracle sampleConn (by decide) (by decide)⟩

/-- C3: any command whose normalized form matches the allow-list is
classified `allowed`, whatever the deny-list says — the allow-list is
checked first and returns immediately. -/
theorem classify_allow_list_precedence (c : String)
    (h : matchesAllowList (normalize c.data) = true) :
    classify c = Verdict.allowed := by
  simp [classify, isCommandDangerous, h]

/-- Witness for C3 at `git log | sh`, which matches the read-only git allow
pattern and the pipe-to-shell deny pattern at once, and is still allowed. -/
theorem classify_allow_list_precedence_witness :
    matchesAllowList (normalize ("git log | sh".data)) = true ∧
    reTest dPipeShell (normalize ("git log | sh".data)) = true ∧
    classify "git log | sh" = Verdict.allowed :=
  ⟨by decide, by decide, classify_allow_list_precedence "git log | sh" (by decide)⟩

/-- C4: a command matching neither the allow-list nor any dangerous pattern
is classified `allowed` (default-permit). -/
theorem classify_default_permit (c : String)
    (ha : matchesAllowList (normalize c.data) = false)
    (hd : List.any dangerousPatterns (fun p => reTest p (normalize c.data)) = false) :
    classify c = Verdict.allowed := by
  simp [classify, isCommandDangerous, ha, hd]

/-- Witness for C4 at `echo hello`, which matches neither list. -/
theorem classify_default_permit_witness :
    matchesAllowList (normalize ("echo hello".data)) = false ∧
    List.any dangerousPatterns (fun p => reTest p (normalize ("echo hello".data))) = false ∧
    classify "echo hello" = Verdict.allowed :=
  ⟨by decide, by decide, classify_default_permit "echo hello" (by decide) (by decide)⟩

/-- C5: the spec's deny and allow coverage examples, evaluated on the
classifier. -/
theorem classify_coverage_examples :
    classify "rm -rf /" = Verdict.denied ∧
    classify "sudo reboot" = Verdict.denied ∧
    classify "docker run ubuntu" = Verdict.denied ∧
    classify "kubectl delete pod x" = Verdict.denied ∧
    classify "systemctl status nginx" = Verdict.allowed ∧
    classify "git log" = Verdict.allowed ∧
    classify "kubectl get pods" = Verdict.allowed := by
  refine ⟨by decide, by decide, by decide, by decide, by decide, by decide, by decide⟩

/-- C6: with well-formed arguments, `create_connection` on an unknown
`machine_id` fails with `NotFound` and changes nothing; every failed
`create_connection` (unknown machine, handshake failure, probe failure)
leaves the registry without a new entry; and on a probe failure the
partially-built transport is torn down (`client.end()` on its handle). -/
theorem create_connection_failure_leaves_registry_clean (inv : List Machine)
    (st : ServerState) (mid title cid : String) (h : Nat)
    (hm : ¬ mid = "") (ht : ¬ title = "") :
    (∀ oc, findMachine inv mid = none →
        create_connection inv st mid title cid h oc =
          (Except.error McpError.notFound, st)) ∧
    (∀ oc e, (create_connection inv st mid title cid h oc).1 = Except.error e →
        (create_connection inv st mid title cid h oc).2.connections =
          st.connections) ∧
    (∀ m, findMachine inv mid = some m →
        h ∈ (create_connection inv st mid title cid h
              ConnectOutcome.probeFail).2.endedHandles) := by
  have hcond : ¬ (mid = "" ∨ title = "") := by
    intro hor
    cases hor with
    | inl h1 => exact hm h1
    | inr h1 => exact ht h1
  refine ⟨?_, ?_, ?_⟩
  · intro oc hf
    simp [create_connection, hcond, hf]
  · intro oc e he
    unfold create_connection at he ⊢
    rw [if_neg hcond] at he ⊢
    cases hf : findMachine inv mid with
    | none => rfl
    | some m =>
      cases oc with
      | handshakeFail => rfl
      | probeFail => rfl
      | ok pwdOut =>
        rw [hf] at he
        simp at he
  · intro m hf
    simp [create_connection, hcond, hf]

/-- Witness for C6: unknown machine id `nope` against a one-machine
inventory. -/
theorem create_connection_failure_leaves_registry_clean_witness :
    create_connection [sampleMachine] sampleState "nope" "t" "u1" 9
        ConnectOutcome.handshakeFail = (Except.error McpError.notFound, sampleState) :=
  (create_connection_failure_leaves_registry_clean [sampleMachine] sampleState
      "nope" "t" "u1" 9 (by decide) (by decide)).1
    ConnectOutcome.handshakeFail (by decide)

/-- C7: `close_connection` on an absent id fails with `NotFound` and changes
nothing; a successful close ends the transport handle, deletes the entry,
and afterwards `execute_command`, `secure_execute_command` and
`close_connection` on the same id all fail with `NotFound`. -/
theorem close_connection_semantics (st : ServerState) (cid : String) :
    (lookupConn st.connections cid = none →
       close_connection st cid = (Except.error McpError.notFound, st)) ∧
    (∀ conn, lookupConn st.connections cid = some conn →
       (close_connection st cid).1 = Except.ok true ∧
       conn.handle ∈ (close_connection st cid).2.endedHandles ∧
       lookupConn (close_connection st cid).2.connections cid = none ∧
       (∀ command oracle, ¬ jsTrim command.data = [] →
          execute_command (close_connection st cid).2 cid command oracle =
            (Except.error McpError.notFound, (close_connection st cid).2) ∧
          secure_execute_command (close_connection st cid).2 cid command oracle =
            (Except.error McpError.notFound, (close_connection st cid).2)) ∧
       close_connection (close_connection st cid).2 cid =
         (Except.error McpError.notFound, (close_connection st cid).2)) := by
  constructor
  · intro hn
    simp [close_connection, hn]
  · intro conn hc
    have h2 : (close_connection st cid).2 =
        { st with connections := deleteConn st.connections cid,
                  endedHandles := conn.handle :: st.endedHandles } := by
      simp [close_connection, hc]
    rw [h2]
    refine ⟨by simp [close_connection, hc], ?_, ?_, ?_, ?_⟩
    · exact List.mem_cons_self _ _
    · exact lookupConn_deleteConn _ _
    · intro command oracle hcommand
      constructor
      · simp [execute_command, hcommand, lookupConn_deleteConn]
      · simp [secure_execute_command, hcommand, lookupConn_deleteConn]
    · simp [close_connection, lookupConn_deleteConn]

/-- Witness for C7 on the sample state's open session `c1`. -/
theorem close_connection_semantics_witness :
    (close_connection sampleState "c1").1 = Except.ok true ∧
    lookupConn (close_connection sampleState "c1").2.connections "c1" = none ∧
    execute_command (close_connection sampleState "c1").2 "c1" "ls" constOracle =
      (Except.error McpError.notFound, (close_connection sampleState "c1").2) ∧
    close_connection (close_connection sampleState "c1").2 "c1" =
      (Except.error McpError.notFound, (close_connection sampleState "c1").2) := by
  have h := (close_connection_semantics sampleState "c1").2 sampleConn (by decide)
  exact ⟨h.1, h.2.2.1, (h.2.2.2.1 "ls" constOracle (by decide)).1, h.2.2.2.2⟩

/-- C8: the returned `connection_id`s of all successful creates over any
trace of create/close calls are pairwise distinct, provided the
`crypto.randomUUID()` values supplied to the create calls are pairwise
distinct (the code returns the generated UUID verbatim and never reuses a
stored one, so uniqueness reduces exactly to the generator's contract); a
close in the trace does not make an id reusable. -/
theorem connection_ids_unique (inv : List Machine) (ops : List Op)
    (st : ServerState) (hnd : (createIds ops).Nodup) :
    ((runTrace inv ops st).1).Nodup :=
  List.Nodup.sublist (runTrace_sublist inv ops st) hnd

/-- Witness for C8 on a create/close/create trace with distinct UUIDs. -/
theorem connection_ids_unique_witness :
    ((runTrace [sampleMachine] sampleOps emptyState).1).Nodup :=
  connection_ids_unique [sampleMachine] sampleOps emptyState (by decide)

/-- C9: the deny patterns are unanchored substring matches: `echo kill
switch` and `echo sudo hello` match no allow pattern, contain a deny keyword
only in inner argument position, and are classified `denied`. -/
theorem deny_patterns_match_inner_substrings :
    matchesAllowList (normalize ("echo kill switch".data)) = false ∧
    reTest dKill (normalize ("echo kill switch".data)) = true ∧
    classify "echo kill switch" = Verdict.denied ∧
    matchesAllowList (normalize ("echo sudo hello".data)) = false ∧
    reTest dUserMod (normalize ("echo sudo hello".data)) = true ∧
    classify "echo sudo hello" = Verdict.denied := by
  refine ⟨by decide, by decide, by decide, by decide, by decide, by decide⟩

/-- C10: the package-manager patterns require the bare tool name followed by
whitespace, so `apt-get install nginx` matches neither list and falls
through to default-permit. -/
theorem apt_get_install_default_permit :
    matchesAllowList (normalize ("apt-get install nginx".data)) = false ∧
    List.any dangerousPatterns
      (fun p => reTest p (normalize ("apt-get install nginx".data))) = false ∧
    classify "apt-get install nginx" = Verdict.allowed := by
  refine ⟨by decide, by decide, by decide⟩

end SshMcp

